import Mathlib

/-
Verification of the order execution engine in
backend/services/polymarket_executor.py.

Modelling conventions:
- Python floats are modelled as exact rationals (ℚ).
- Network calls are modelled by oracle functions stored in an Env record;
  every function that performs network calls also returns the list of
  calls it made, so that claims about "no network call" are statable.
- A Python requests response is modelled by FetchResult: ok carries the
  parsed JSON, httpError models resp.ok being false, exn models a raised
  exception (transport failure).
- Python raise / the fail helper is modelled by Except.error with a
  constructor per fail site; distinct sites get distinct constructors.
- Python truthiness of optional strings and ints (the "x or default"
  idiom) is modelled by pyTruthy / pyOrInt / pyOrStr.
-/

namespace PolymarketExecutor

/-- Python truthiness of an optional string: None and the empty string
are falsy. -/
def pyTruthy : Option String → Bool
  | none => false
  | some s => s ≠ ""

/-- Python expression x or d for an optional integer x: None and 0 are
falsy, so both select the default d (source line 404 and 413). -/
def pyOrInt : Option Int → Int → Int
  | none, d => d
  | some v, d => if v = 0 then d else v

/-- Python expression x or d for an optional string x: None and the empty
string select the default d. -/
def pyOrStr : Option String → String → String
  | none, d => d
  | some s, d => if s = "" then d else s

/-- Python round() on a rational: nearest integer, ties to even
(banker rounding, the Python 3 semantics of the builtin round). -/
def pyRound (q : ℚ) : ℤ :=
  if q - (⌊q⌋ : ℚ) < 1/2 then ⌊q⌋
  else if 1/2 < q - (⌊q⌋ : ℚ) then ⌊q⌋ + 1
  else if ⌊q⌋ % 2 = 0 then ⌊q⌋ else ⌊q⌋ + 1

/-- to_base_units (source lines 209-211): str(int(round(amount * 1000000))). -/
def to_base_units (amount : ℚ) : String :=
  toString (pyRound (amount * 1000000))

/-- One constructor per fail site of the executor module. -/
inductive Err where
  | configuration (msg : String)
  | limitExceeded
  | notFound (id : String)
  | fetchFailed (status : ℤ) (body : String)
  | noTokens
  | outcomeIndexOutOfRange (idx : ℤ) (len : ℕ)
  | missingTokenId
  | liquidityUnavailable
  | slippageExceeded
  | submissionFailed (status : ℤ) (body : String)
  | transport (msg : String)
  | fuelExhausted
deriving DecidableEq, Repr

/-- Network calls issued by the engine, for tracing side effects. -/
inductive NetCall where
  | marketLookup (id : String)
  | marketsPage (cursor : String)
  | bookFetch (tokenId : String)
  | orderPost
deriving DecidableEq, Repr

/-- Result of a requests call: parsed ok response, non-2xx response, or
a raised transport exception. -/
inductive FetchResult (α : Type) where
  | ok (a : α)
  | httpError (status : ℤ) (body : String)
  | exn (msg : String)
deriving DecidableEq, Repr

/-- pick_price (source lines 185-206). The book sides are lists of
(price, size) pairs; best is the top ask for a buy and the top bid for a
sell, None when the relevant side is empty. -/
def pick_price (side : String) (limit_price : ℚ)
    (bids asks : List (ℚ × ℚ)) (max_slippage_bps : ℤ) : Except Err ℚ :=
  let best : Option ℚ :=
    if side = "buy" ∧ asks ≠ [] then asks.head?.map Prod.fst
    else if side = "sell" ∧ bids ≠ [] then bids.head?.map Prod.fst
    else none
  match best with
  | none => Except.ok limit_price
  | some b =>
    let allowed : ℚ :=
      if side = "buy" then b * (1 + (max_slippage_bps : ℚ) / 10000)
      else b * (1 - (max_slippage_bps : ℚ) / 10000)
    if side = "buy" ∧ limit_price > allowed then Except.error Err.slippageExceeded
    else if side = "sell" ∧ limit_price < allowed then Except.error Err.slippageExceeded
    else Except.ok limit_price

/-- The wire payload built by build_order_body (source lines 228-238). -/
structure OrderBody where
  token_id : String
  side : ℤ
  price : String
  size : String
  expiration : ℤ
  salt : String
  feeRateBps : ℤ
  maker : String
  chainId : ℤ
deriving DecidableEq, Repr

/-- JSON token object from the CLOB markets endpoint. -/
structure TokenJson where
  token_id : Option String
  outcome : Option String
deriving DecidableEq, Repr

/-- JSON market object from the CLOB markets endpoint. -/
structure MarketJson where
  condition_id : Option String
  id : Option String
  question_id : Option String
  tokens : List TokenJson
deriving DecidableEq, Repr

/-- One page of the paginated CLOB markets listing. -/
structure PageJson where
  data : List MarketJson
  next_cursor : Option String
deriving DecidableEq, Repr

/-- JSON body of the CLOB book endpoint, already parsed to rationals. -/
structure BookJson where
  bids : List (ℚ × ℚ)
  asks : List (ℚ × ℚ)
deriving DecidableEq, Repr

/-- Response of submit_order: either the simulated dry-run echo of the
payload (order body plus signature) or the parsed live venue response. -/
inductive SubmitResp where
  | simulated (body : OrderBody) (signature : String)
  | live (resp : String)
deriving DecidableEq, Repr

/-- Configuration and oracles for one execute_order invocation: the
environment variables read by the module, the clock, the salt source,
the signer, and the network endpoints. -/
structure Env where
  rpc : Option String
  pk : Option String
  domain_name : Option String
  domain_version : Option String
  verifier : Option String
  maxOrderUsdc : ℚ
  defaultTtl : ℤ
  defaultSlippageBps : ℤ
  allowMissingBook : Bool
  chainId : ℤ
  now : ℤ
  salt : String
  makerOf : String → String
  sign : OrderBody → String
  lookup : String → FetchResult MarketJson
  page : String → FetchResult PageJson
  book : String → FetchResult BookJson
  post : OrderBody → String → FetchResult String
  fuel : ℕ

/-- build_order_body (source lines 214-238): expiration is now plus the
ttl, side is encoded 0 for buy and 1 for anything else. -/
def build_order_body (env : Env) (maker token_id side : String)
    (price size : ℚ) (ttl_seconds : ℤ) : OrderBody :=
  { token_id := token_id
    side := if side = "buy" then 0 else 1
    price := to_base_units price
    size := to_base_units size
    expiration := env.now + ttl_seconds
    salt := env.salt
    feeRateBps := 0
    maker := maker
    chainId := env.chainId }

/-- submit_order (source lines 305-318): in dry-run mode return the
simulated payload without any network call, otherwise post the payload
and fail on a non-2xx response with the body truncated to 400 chars. -/
def submit_order (env : Env) (order_body : OrderBody) (signature : String)
    (dry_run : Bool) : Except Err SubmitResp × List NetCall :=
  if dry_run then (Except.ok (SubmitResp.simulated order_body signature), [])
  else
    match env.post order_body signature with
    | FetchResult.ok r => (Except.ok (SubmitResp.live r), [NetCall.orderPost])
    | FetchResult.httpError s b =>
        (Except.error (Err.submissionFailed s (b.take 400)), [NetCall.orderPost])
    | FetchResult.exn m => (Except.error (Err.transport m), [NetCall.orderPost])

/-- Case-insensitive identifier match against condition_id, id and
question_id (each read with a get-or-empty, then lowercased); cond is
assumed already lowercased by the caller, as in the source. -/
def matchesId (cond : String) (m : MarketJson) : Bool :=
  let cid := (m.condition_id.getD "").toLower
  let mid := (m.id.getD "").toLower
  let qid := (m.question_id.getD "").toLower
  cond = cid ∨ cond = mid ∨ cond = qid

/-- Linear scan of one page of markets for the first match
(source lines 66-72). -/
def findMatch (cond : String) : List MarketJson → Option MarketJson
  | [] => none
  | m :: rest => if matchesId cond m then some m else findMatch cond rest

/-- End-of-pagination test (source line 76): the cursor is absent, empty
or equals the sentinel LTE=. -/
def isEndCursor : Option String → Bool
  | none => true
  | some s => s = "" || s = "LTE="

/-- The pagination loop of find_market_by_condition_id (source lines
51-80), with explicit fuel standing for the unbounded while loop. Each
iteration fetches one page; a non-2xx page fetch aborts the scan, a
transport exception propagates, a match returns the market, and hitting
the end cursor without a match fails with the not-found error. Also
returns the trace of page fetches issued. -/
def scanLoop (env : Env) (cond : String) :
    ℕ → String → Except Err MarketJson × List NetCall
  | 0, _ => (Except.error Err.fuelExhausted, [])
  | fuel+1, cursor =>
    match env.page cursor with
    | FetchResult.exn m => (Except.error (Err.transport m), [NetCall.marketsPage cursor])
    | FetchResult.httpError s b =>
        (Except.error (Err.fetchFailed s (b.take 200)), [NetCall.marketsPage cursor])
    | FetchResult.ok p =>
      match findMatch cond p.data with
      | some m => (Except.ok m, [NetCall.marketsPage cursor])
      | none =>
        if isEndCursor p.next_cursor then
          (Except.error (Err.notFound cond), [NetCall.marketsPage cursor])
        else
          let r := scanLoop env cond fuel (p.next_cursor.getD "")
          (r.1, NetCall.marketsPage cursor :: r.2)

/-- find_market_by_condition_id (source lines 28-80): lowercase the
identifier, try the point lookup (any exception or non-2xx there is
swallowed and the match test failing also falls through), then run the
paginated scan from the empty cursor. -/
def find_market_by_condition_id (env : Env) (condition_id : String) :
    Except Err MarketJson × List NetCall :=
  let cond := condition_id.toLower
  let fast : Option MarketJson :=
    match env.lookup cond with
    | FetchResult.ok m => if matchesId cond m then some m else none
    | _ => none
  match fast with
  | some m => (Except.ok m, [NetCall.marketLookup cond])
  | none =>
    let r := scanLoop env cond env.fuel ""
    (r.1, NetCall.marketLookup cond :: r.2)

/-- get_token_info (source lines 83-117): resolve the market, require a
non-empty token list, bound-check the outcome index, require a truthy
token_id on the chosen token. -/
def get_token_info (env : Env) (market_id : String) (outcome_index : ℤ) :
    Except Err (String × List String × List TokenJson × String) × List NetCall :=
  match find_market_by_condition_id env market_id with
  | (Except.error e, tr) => (Except.error e, tr)
  | (Except.ok market, tr) =>
    let tokens := market.tokens
    if tokens = [] then (Except.error Err.noTokens, tr)
    else if outcome_index < 0 ∨ (tokens.length : ℤ) ≤ outcome_index then
      (Except.error (Err.outcomeIndexOutOfRange outcome_index tokens.length), tr)
    else
      let outcomes := tokens.enum.map
        (fun p => pyOrStr p.2.outcome ("outcome_" ++ toString p.1))
      let chosen := tokens.getD outcome_index.toNat { token_id := none, outcome := none }
      match chosen.token_id with
      | none => (Except.error Err.missingTokenId, tr)
      | some tid =>
        if tid = "" then (Except.error Err.missingTokenId, tr)
        else
          (Except.ok (tid, outcomes, tokens, pyOrStr market.id market_id), tr)

/-- The sibling loop of get_orderbook (source lines 156-175): skip
entries without a truthy token_id or equal to the already-tried primary
token; a 2xx fetch returns that book, a non-2xx fetch moves on to the
next sibling, a transport exception propagates. Falling off the end
reaches the fail call at source line 179. -/
def tryAlternates (env : Env) (primary : String) :
    List TokenJson → Except Err (List (ℚ × ℚ) × List (ℚ × ℚ)) × List NetCall
  | [] => (Except.error Err.liquidityUnavailable, [])
  | t :: rest =>
    match t.token_id with
    | none => tryAlternates env primary rest
    | some tid =>
      if tid = "" ∨ tid = primary then tryAlternates env primary rest
      else
        match env.book tid with
        | FetchResult.ok d => (Except.ok (d.bids, d.asks), [NetCall.bookFetch tid])
        | FetchResult.httpError _ _ =>
            let r := tryAlternates env primary rest
            (r.1, NetCall.bookFetch tid :: r.2)
        | FetchResult.exn m =>
            (Except.error (Err.transport m), [NetCall.bookFetch tid])

/-- get_orderbook (source lines 120-182): fetch the primary token book;
on 2xx return it, on a transport exception propagate the exception
(the source has no try around the primary fetch), on non-2xx iterate
the sibling tokens when a token list was supplied, else fail with the
no-liquidity error. -/
def get_orderbook (env : Env) (token_id : String)
    (tokens : Option (List TokenJson)) :
    Except Err (List (ℚ × ℚ) × List (ℚ × ℚ)) × List NetCall :=
  match env.book token_id with
  | FetchResult.ok d => (Except.ok (d.bids, d.asks), [NetCall.bookFetch token_id])
  | FetchResult.exn m => (Except.error (Err.transport m), [NetCall.bookFetch token_id])
  | FetchResult.httpError _ _ =>
    match tokens with
    | none => (Except.error Err.liquidityUnavailable, [NetCall.bookFetch token_id])
    | some ts =>
      let r := tryAlternates env token_id ts
      (r.1, NetCall.bookFetch token_id :: r.2)

/-- The ExecutionResult dictionary returned by execute_order
(source lines 422-435). -/
structure ExecResult where
  maker : String
  marketId : String
  tokenId : String
  outcomeIndex : ℤ
  side : String
  size : ℚ
  limitPrice : ℚ
  usedPrice : ℚ
  outcomes : List String
  orderBody : OrderBody
  signature : String
  response : SubmitResp
deriving DecidableEq, Repr

/-- Step 1 of execute_order (source lines 373-380): when a truthy
token_id is supplied use it directly with empty outcomes and no token
list, otherwise resolve it through get_token_info. -/
def resolve_token (env : Env) (market_id : String) (outcome_index : ℤ)
    (token_id : Option String) :
    Except Err (String × List String × Option (List TokenJson)) × List NetCall :=
  if pyTruthy token_id then (Except.ok (token_id.getD "", [], none), [])
  else
    match get_token_info env market_id outcome_index with
    | (Except.ok (tid, outs, toks, _), tr) => (Except.ok (tid, outs, some toks), tr)
    | (Except.error e, tr) => (Except.error e, tr)

/-- Step 2 of execute_order (source lines 382-399): fetch the book; any
failure is downgraded to the empty book when both dry_run and the
allow-missing-book flag are set, and re-raised otherwise. -/
def book_with_override (env : Env) (tid : String)
    (toks : Option (List TokenJson)) (dry_run : Bool) :
    Except Err (List (ℚ × ℚ) × List (ℚ × ℚ)) × List NetCall :=
  match get_orderbook env tid toks with
  | (Except.ok b, tr) => (Except.ok b, tr)
  | (Except.error e, tr) =>
    if dry_run && env.allowMissingBook then (Except.ok ([], []), tr)
    else (Except.error e, tr)

/-- execute_order (source lines 321-435): config checks, notional cap,
token resolution (skipped when a truthy token_id is supplied), book
fetch with the dry-run empty-book override, slippage guard, order build,
sign, submit. Returns the result together with the trace of all network
calls issued. -/
def execute_order (env : Env) (market_id : String) (outcome_index : ℤ)
    (side : String) (size limit_price : ℚ)
    (ttl_seconds max_slippage_bps : Option ℤ)
    (dry_run : Bool) (token_id : Option String) :
    Except Err ExecResult × List NetCall :=
  if pyTruthy env.rpc = false then
    (Except.error (Err.configuration "POLYGON_RPC_URL is required"), [])
  else if pyTruthy env.pk = false then
    (Except.error (Err.configuration "POLYMARKET_PRIVATE_KEY is required"), [])
  else if (pyTruthy env.domain_name && pyTruthy env.domain_version &&
      pyTruthy env.verifier) = false then
    (Except.error (Err.configuration "EIP712 domain parameters are required"), [])
  else if size * limit_price > env.maxOrderUsdc then
    (Except.error Err.limitExceeded, [])
  else
    let maker := env.makerOf (env.pk.getD "")
    match resolve_token env market_id outcome_index token_id with
    | (Except.error e, tr) => (Except.error e, tr)
    | (Except.ok (tid, outcomes, toks), tr1) =>
      match book_with_override env tid toks dry_run with
      | (Except.error e, tr2) => (Except.error e, tr1 ++ tr2)
      | (Except.ok (bids, asks), tr2) =>
        match pick_price side limit_price bids asks
            (pyOrInt max_slippage_bps env.defaultSlippageBps) with
        | Except.error e => (Except.error e, tr1 ++ tr2)
        | Except.ok price =>
          let body := build_order_body env maker tid side price size
            (pyOrInt ttl_seconds env.defaultTtl)
          let signature := env.sign body
          match submit_order env body signature dry_run with
          | (Except.error e, tr3) => (Except.error e, tr1 ++ tr2 ++ tr3)
          | (Except.ok resp, tr3) =>
            (Except.ok
              { maker := maker
                marketId := market_id
                tokenId := tid
                outcomeIndex := outcome_index
                side := side
                size := size
                limitPrice := limit_price
                usedPrice := price
                outcomes := outcomes
                orderBody := body
                signature := signature
                response := resp }, tr1 ++ tr2 ++ tr3)

deriving instance DecidableEq for Except

/-- A fully configured environment whose book endpoint serves tok (top of
book 0.5) and tok6 (top of book 0.6) and fails with a transport exception
on every other token; used to evaluate the pipeline on concrete inputs. -/
def benignEnv : Env :=
  { rpc := some "http://rpc"
    pk := some "0xkey"
    domain_name := some "Polymarket"
    domain_version := some "1"
    verifier := some "0xverifier"
    maxOrderUsdc := 500
    defaultTtl := 600
    defaultSlippageBps := 100
    allowMissingBook := false
    chainId := 137
    now := 1000
    salt := "abcd"
    makerOf := fun _ => "0xmaker"
    sign := fun _ => "0xsig"
    lookup := fun _ => FetchResult.exn "no lookup"
    page := fun _ => FetchResult.exn "no pages"
    book := fun tid =>
      if tid = "tok" then FetchResult.ok { bids := [(1/2, 1)], asks := [(1/2, 1)] }
      else if tid = "tok6" then FetchResult.ok { bids := [(3/5, 5)], asks := [(3/5, 5)] }
      else FetchResult.exn "connection reset"
    post := fun _ _ => FetchResult.exn "no post"
    fuel := 10 }

/-- Environment whose book endpoint answers non-2xx for every token
except the sibling sib; used to exercise the sibling fallback. -/
def flakyEnv : Env :=
  { benignEnv with
    book := fun tid =>
      if tid = "sib" then FetchResult.ok { bids := [(2/5, 1)], asks := [(2/5, 1)] }
      else FetchResult.httpError 404 "not found" }

/-- Environment with a two-page markets listing that contains no match
and ends with the LTE= sentinel; used to exercise pagination. -/
def pagedEnv : Env :=
  { benignEnv with
    page := fun c =>
      if c = "" then FetchResult.ok { data := [], next_cursor := some "c1" }
      else if c = "c1" then FetchResult.ok { data := [], next_cursor := some "LTE=" }
      else FetchResult.exn "no such page" }

/-- The ExecutionResult produced by benignEnv for a dry-run buy of 1
share of tok at limit 0.5 with all optional parameters absent. -/
def execRes1 : ExecResult :=
  { maker := "0xmaker"
    marketId := "m"
    tokenId := "tok"
    outcomeIndex := 0
    side := "buy"
    size := 1
    limitPrice := 1/2
    usedPrice := 1/2
    outcomes := []
    orderBody :=
      { token_id := "tok"
        side := 0
        price := "500000"
        size := "1000000"
        expiration := 1600
        salt := "abcd"
        feeRateBps := 0
        maker := "0xmaker"
        chainId := 137 }
    signature := "0xsig"
    response := SubmitResp.simulated
      { token_id := "tok"
        side := 0
        price := "500000"
        size := "1000000"
        expiration := 1600
        salt := "abcd"
        feeRateBps := 0
        maker := "0xmaker"
        chainId := 137 } "0xsig" }

/-- The cursor chain starting at c consists of successfully fetched
pages and reaches an end cursor within n pages. -/
def EndsWithin (env : Env) : ℕ → String → Prop
  | 0, _ => False
  | n+1, c => ∃ p, env.page c = FetchResult.ok p ∧
      (isEndCursor p.next_cursor = true ∨ EndsWithin env n (p.next_cursor.getD ""))

/-- Like EndsWithin, and additionally no visited page contains a market
matching cond. -/
def NoMatchChain (env : Env) (cond : String) : ℕ → String → Prop
  | 0, _ => False
  | n+1, c => ∃ p, env.page c = FetchResult.ok p ∧ findMatch cond p.data = none ∧
      (isEndCursor p.next_cursor = true ∨ NoMatchChain env cond n (p.next_cursor.getD ""))

/-- A token entry that the sibling loop either skips (missing, empty or
primary-equal token id) or whose book fetch answers non-2xx. -/
def skippedOrHttpFails (env : Env) (primary : String) (t : TokenJson) : Prop :=
  t.token_id = none ∨ t.token_id = some "" ∨ t.token_id = some primary ∨
    ∃ tid s b, t.token_id = some tid ∧ env.book tid = FetchResult.httpError s b

/-! Helper lemmas. -/

/-- A successful pick_price always returns the limit price unchanged. -/
theorem pick_price_ok_eq (side : String) (lp : ℚ) (bids asks : List (ℚ × ℚ))
    (s : ℤ) (r : ℚ) (h : pick_price side lp bids asks s = Except.ok r) : r = lp := by
  unfold pick_price at h
  dsimp only at h
  split at h <;> (try split at h) <;> (try split_ifs at h) <;> simp_all

/-- pick_price on a fully empty snapshot returns the limit price for
every side. -/
theorem pick_price_empty_book (side : String) (lp : ℚ) (s : ℤ) :
    pick_price side lp [] [] s = Except.ok lp := by
  unfold pick_price
  simp

/-- Rounding specification of pyRound: nearest integer, ties to even. -/
theorem pyRound_spec (x : ℚ) :
    |x - (pyRound x : ℚ)| ≤ 1/2 ∧ (|x - (pyRound x : ℚ)| = 1/2 → pyRound x % 2 = 0) := by
  have h0 : (0:ℚ) ≤ x - (⌊x⌋ : ℚ) := by
    have := Int.floor_le x; linarith
  have h1 : x - (⌊x⌋ : ℚ) < 1 := by
    have := Int.lt_floor_add_one x
    linarith
  unfold pyRound
  split_ifs with ha hb hc
  · constructor
    · rw [abs_of_nonneg h0]; linarith
    · intro habs; rw [abs_of_nonneg h0] at habs; linarith
  · have hy : x - ((⌊x⌋ : ℤ) + 1 : ℤ) < 0 := by push_cast; linarith
    have hy2 : -(1/2 : ℚ) < x - ((⌊x⌋ : ℤ) + 1 : ℤ) := by push_cast; linarith
    constructor
    · rw [abs_of_nonpos (le_of_lt hy)]; linarith
    · intro habs; rw [abs_of_nonpos (le_of_lt hy)] at habs; linarith
  · have heq : x - (⌊x⌋ : ℚ) = 1/2 := by linarith
    constructor
    · rw [abs_of_nonneg h0]; linarith
    · intro _; exact hc
  · have heq : x - (⌊x⌋ : ℚ) = 1/2 := by linarith
    have hodd : ⌊x⌋ % 2 = 1 := by omega
    have hy : x - ((⌊x⌋ : ℤ) + 1 : ℤ) = -(1/2 : ℚ) := by push_cast; linarith
    constructor
    · rw [hy]; rw [abs_neg, abs_of_nonneg (by norm_num : (0:ℚ) ≤ 1/2)]
    · intro _; omega

/-- The pagination scan never produces the notional-cap error. -/
theorem scanLoop_ne_limit (env : Env) (cond : String) :
    ∀ (fuel : ℕ) (c : String),
      (scanLoop env cond fuel c).1 ≠ Except.error Err.limitExceeded := by
  intro fuel
  induction fuel with
  | zero => intro c; simp [scanLoop]
  | succ n ih =>
    intro c
    unfold scanLoop
    split
    · simp
    · simp
    · split
      · simp
      · split
        · simp
        · exact ih _

/-- The resolver never produces the notional-cap error. -/
theorem find_market_ne_limit (env : Env) (cid : String) :
    (find_market_by_condition_id env cid).1 ≠ Except.error Err.limitExceeded := by
  unfold find_market_by_condition_id
  dsimp only
  split
  · simp
  · exact scanLoop_ne_limit env _ _ _

/-- get_token_info never produces the notional-cap error. -/
theorem get_token_info_ne_limit (env : Env) (mi : String) (oi : ℤ) :
    (get_token_info env mi oi).1 ≠ Except.error Err.limitExceeded := by
  unfold get_token_info
  split
  · next e tr heq =>
    have h := find_market_ne_limit env mi
    rw [heq] at h
    simpa using h
  · dsimp only
    split_ifs
    · simp
    · simp
    · split
      · simp
      · split_ifs <;> simp

/-- resolve_token never produces the notional-cap error. -/
theorem resolve_token_ne_limit (env : Env) (mi : String) (oi : ℤ)
    (tok : Option String) :
    (resolve_token env mi oi tok).1 ≠ Except.error Err.limitExceeded := by
  unfold resolve_token
  split_ifs
  · simp
  · split
    · simp
    · next e tr heq =>
      have h := get_token_info_ne_limit env mi oi
      rw [heq] at h
      simpa using h

/-- The sibling fallback loop never produces the notional-cap error. -/
theorem tryAlternates_ne_limit (env : Env) (primary : String) :
    ∀ (ts : List TokenJson),
      (tryAlternates env primary ts).1 ≠ Except.error Err.limitExceeded := by
  intro ts
  induction ts with
  | nil => simp [tryAlternates]
  | cons t rest ih =>
    unfold tryAlternates
    split
    · exact ih
    · split_ifs
      · exact ih
      · split
        · simp
        · exact ih
        · simp

/-- get_orderbook never produces the notional-cap error. -/
theorem get_orderbook_ne_limit (env : Env) (tid : String)
    (toks : Option (List TokenJson)) :
    (get_orderbook env tid toks).1 ≠ Except.error Err.limitExceeded := by
  unfold get_orderbook
  split
  · simp
  · simp
  · split
    · simp
    · exact tryAlternates_ne_limit env _ _

/-- book_with_override never produces the notional-cap error. -/
theorem book_with_override_ne_limit (env : Env) (tid : String)
    (toks : Option (List TokenJson)) (dr : Bool) :
    (book_with_override env tid toks dr).1 ≠ Except.error Err.limitExceeded := by
  unfold book_with_override
  split
  · simp
  · next e tr heq =>
    split_ifs
    · simp
    · have h := get_orderbook_ne_limit env tid toks
      rw [heq] at h
      simpa using h

/-- Every pick_price outcome is either the limit price or the slippage
error. -/
theorem pick_price_cases (side : String) (lp : ℚ) (bids asks : List (ℚ × ℚ))
    (s : ℤ) :
    pick_price side lp bids asks s = Except.ok lp ∨
    pick_price side lp bids asks s = Except.error Err.slippageExceeded := by
  unfold pick_price
  dsimp only
  split
  · exact Or.inl rfl
  · split_ifs <;> simp

/-- pick_price never produces the notional-cap error. -/
theorem pick_price_ne_limit (side : String) (lp : ℚ) (bids asks : List (ℚ × ℚ))
    (s : ℤ) : pick_price side lp bids asks s ≠ Except.error Err.limitExceeded := by
  rcases pick_price_cases side lp bids asks s with h | h <;> rw [h] <;> simp

/-- submit_order never produces the notional-cap error. -/
theorem submit_order_ne_limit (env : Env) (b : OrderBody) (sig : String)
    (dr : Bool) :
    (submit_order env b sig dr).1 ≠ Except.error Err.limitExceeded := by
  unfold submit_order
  split_ifs
  · simp
  · split <;> simp

/-! Claim theorems. -/

/-- C1: slippage guard boundary. With a non-empty ask ladder whose best
ask is b, a buy at limit lp with budget s bps succeeds returning a price
exactly when lp is at most b*(1+s/10000) (acceptance at the bound
included) and fails with the slippage error when lp exceeds it;
symmetrically a sell against best bid b succeeds exactly when lp is at
least b*(1-s/10000). In particular with best 0.60, side buy, budget 100
bps, limit 0.606 is accepted and limit 0.6061 is rejected. -/
theorem pick_price_slippage_guard_boundary :
    (∀ (lp b sz : ℚ) (rest bids : List (ℚ × ℚ)) (s : ℤ),
        pick_price "buy" lp bids ((b, sz) :: rest) s =
          if lp ≤ b * (1 + (s : ℚ) / 10000) then Except.ok lp
          else Except.error Err.slippageExceeded)
    ∧ (∀ (lp b sz : ℚ) (rest asks : List (ℚ × ℚ)) (s : ℤ),
        pick_price "sell" lp ((b, sz) :: rest) asks s =
          if b * (1 - (s : ℚ) / 10000) ≤ lp then Except.ok lp
          else Except.error Err.slippageExceeded)
    ∧ pick_price "buy" (606/1000) [] [((6/10 : ℚ), 1)] 100 = Except.ok (606/1000)
    ∧ pick_price "buy" (6061/10000) [] [((6/10 : ℚ), 1)] 100 =
        Except.error Err.slippageExceeded := by
  refine ⟨?_, ?_, ?_, ?_⟩
  · intro lp b sz rest bids s
    unfold pick_price
    rcases le_or_lt lp (b * (1 + (s : ℚ) / 10000)) with h | h
    · simp [not_lt.mpr h, h]
    · simp [h, not_le.mpr h]
  · intro lp b sz rest asks s
    unfold pick_price
    rcases le_or_lt (b * (1 - (s : ℚ) / 10000)) lp with h | h
    · simp [not_lt.mpr h, h]
    · simp [h, not_le.mpr h]
  · unfold pick_price
    norm_num
  · unfold pick_price
    norm_num

/-- C7: when the relevant side of the book is empty (no asks for a buy,
no bids for a sell, in particular a fully empty snapshot), the guard is
skipped and pick_price returns the limit price unchanged, never failing
with the slippage error. -/
theorem pick_price_empty_side_skips_guard :
    (∀ (lp : ℚ) (bids : List (ℚ × ℚ)) (s : ℤ),
        pick_price "buy" lp bids [] s = Except.ok lp)
    ∧ (∀ (lp : ℚ) (asks : List (ℚ × ℚ)) (s : ℤ),
        pick_price "sell" lp [] asks s = Except.ok lp) := by
  constructor <;> intro lp other s <;> unfold pick_price <;> simp

/-- C4: submit_order with the dry-run flag set issues no network call
(the call trace is empty) and returns the payload marked simulated,
consisting of exactly the signed order body and the signature. -/
theorem submit_order_dry_run_simulated (env : Env) (body : OrderBody) (sig : String) :
    submit_order env body sig true = (Except.ok (SubmitResp.simulated body sig), []) := rfl

/-- C5 counterexample: the claim predicts half-up rounding, so that
0.0000005 scaled by one million (exactly 0.5) converts to the string 1;
the code rounds with Python round, whose ties go to even, so 0.0000005
converts to 0, not 1. -/
theorem to_base_units_half_up_counterexample :
    to_base_units (1/2000000) = "0" ∧ to_base_units (1/2000000) ≠ "1" := by
  have h : to_base_units (1/2000000) = "0" := by
    unfold to_base_units pyRound
    norm_num
    rfl
  exact ⟨h, by rw [h]; decide⟩

/-- C5 amended: for every non-negative amount, to_base_units returns the
decimal string of an integer n that is nearest to amount times one
million within one half, with ties resolved to the even integer
(Python banker rounding), not half-up. -/
theorem to_base_units_nearest_ties_to_even (q : ℚ) (_hq : 0 ≤ q) :
    ∃ n : ℤ, to_base_units q = toString n ∧
      |q * 1000000 - (n : ℚ)| ≤ 1/2 ∧
      (|q * 1000000 - (n : ℚ)| = 1/2 → n % 2 = 0) := by
  refine ⟨pyRound (q * 1000000), rfl, ?_, ?_⟩
  · exact (pyRound_spec (q * 1000000)).1
  · exact (pyRound_spec (q * 1000000)).2

/-- Witness for the C5 amended theorem at the concrete amount 0.75:
0.75 is non-negative and converts to the string of 750000, which is
within one half of 750000 (trivially, being exact). -/
theorem to_base_units_nearest_ties_to_even_witness :
    (0:ℚ) ≤ 3/4 ∧ ∃ n : ℤ, to_base_units (3/4) = toString n ∧
      |(3/4 : ℚ) * 1000000 - (n : ℚ)| ≤ 1/2 ∧
      (|(3/4 : ℚ) * 1000000 - (n : ℚ)| = 1/2 → n % 2 = 0) :=
  ⟨by norm_num, to_base_units_nearest_ties_to_even (3/4) (by norm_num)⟩

/-- C2: with the configuration preconditions satisfied (so that the
earlier configuration checks pass), execute_order computes the notional
as size times the requested limit price and fails with the notional-cap
error if and only if it strictly exceeds the configured maximum; when it
fails this way the network-call trace is empty, i.e. the check runs
before any network call. -/
theorem execute_order_notional_cap (env : Env) (mi : String) (oi : ℤ) (side : String)
    (size lp : ℚ) (ttl ms : Option ℤ) (dr : Bool) (tok : Option String)
    (hrpc : pyTruthy env.rpc = true) (hpk : pyTruthy env.pk = true)
    (hdom : (pyTruthy env.domain_name && pyTruthy env.domain_version &&
      pyTruthy env.verifier) = true) :
    (size * lp > env.maxOrderUsdc →
      execute_order env mi oi side size lp ttl ms dr tok =
        (Except.error Err.limitExceeded, []))
    ∧ (¬ size * lp > env.maxOrderUsdc →
      (execute_order env mi oi side size lp ttl ms dr tok).1 ≠
        Except.error Err.limitExceeded) := by
  constructor
  · intro h
    unfold execute_order
    rw [hrpc, hpk, hdom]
    simp [h]
  · intro hno
    unfold execute_order
    rw [hrpc, hpk, hdom]
    simp only [Bool.true_eq_false, if_false]
    rw [if_neg hno]
    split
    · next e tr heq =>
      have h2 := resolve_token_ne_limit env mi oi tok
      rw [heq] at h2
      simpa using h2
    · next tid outcomes toks tr1 heq =>
      split
      · next e tr2 heq2 =>
        have h2 := book_with_override_ne_limit env tid toks dr
        rw [heq2] at h2
        simpa using h2
      · next bids asks tr2 heq2 =>
        split
        · next e heq3 =>
          have h2 := pick_price_ne_limit side lp bids asks
            (pyOrInt ms env.defaultSlippageBps)
          rw [heq3] at h2
          simpa using h2
        · next price heq3 =>
          split
          · next e tr3 heq4 =>
            have h2 := submit_order_ne_limit env
              (build_order_body env (env.makerOf (env.pk.getD "")) tid side price size
                (pyOrInt ttl env.defaultTtl))
              (env.sign (build_order_body env (env.makerOf (env.pk.getD "")) tid side
                price size (pyOrInt ttl env.defaultTtl))) dr
            rw [heq4] at h2
            simpa using h2
          · next resp tr3 heq4 => simp

/-- Witness for C2 at the boundary of the spec: with the configured cap
of 500, size 1000 at limit 0.5 (notional exactly 500) is not rejected by
the cap, while size 1000 at limit 0.5001 is rejected with the
notional-cap error before any network call. -/
theorem execute_order_notional_cap_witness :
    (execute_order benignEnv "m" 0 "buy" 1000 (1/2) none none true (some "tok")).1 ≠
      Except.error Err.limitExceeded
    ∧ execute_order benignEnv "m" 0 "buy" 1000 (5001/10000) none none true (some "tok") =
      (Except.error Err.limitExceeded, []) :=
  ⟨(execute_order_notional_cap benignEnv "m" 0 "buy" 1000 (1/2) none none true
      (some "tok") rfl rfl rfl).2 (by norm_num [benignEnv]),
   (execute_order_notional_cap benignEnv "m" 0 "buy" 1000 (5001/10000) none none true
      (some "tok") rfl rfl rfl).1 (by norm_num [benignEnv])⟩

/-- C10: a successful pick_price call returns exactly the limit price
supplied by the caller (the book is only consulted to accept or reject),
and consequently every successful ExecutionResult has usedPrice equal to
limitPrice. -/
theorem used_price_equals_limit_price :
    (∀ (side : String) (lp : ℚ) (bids asks : List (ℚ × ℚ)) (s : ℤ) (r : ℚ),
        pick_price side lp bids asks s = Except.ok r → r = lp)
    ∧ (∀ (env : Env) (mi : String) (oi : ℤ) (side : String) (size lp : ℚ)
        (ttl ms : Option ℤ) (dr : Bool) (tok : Option String)
        (r : ExecResult) (tr : List NetCall),
        execute_order env mi oi side size lp ttl ms dr tok = (Except.ok r, tr) →
        r.usedPrice = r.limitPrice) := by
  constructor
  · exact pick_price_ok_eq
  · intro env mi oi side size lp ttl ms dr tok r tr h
    unfold execute_order at h
    split_ifs at h
    · simp at h
    · simp at h
    · simp at h
    · simp at h
    · split at h
      · simp at h
      · next tid outcomes toks tr1 heq =>
        split at h
        · simp at h
        · next bids asks tr2 heq2 =>
          split at h
          · simp at h
          · next price heq3 =>
            dsimp only at h
            split at h
            · simp at h
            · next resp tr3 heq4 =>
              simp only [Prod.mk.injEq, Except.ok.injEq] at h
              obtain ⟨h1, -⟩ := h
              subst h1
              exact pick_price_ok_eq side lp bids asks
                (pyOrInt ms env.defaultSlippageBps) price heq3

/-- Witness for C10: a concrete successful dry-run execution whose
result has usedPrice equal to limitPrice. -/
theorem used_price_equals_limit_price_witness :
    execute_order benignEnv "m" 0 "buy" 1 (1/2) none none true (some "tok") =
      (Except.ok execRes1, [NetCall.bookFetch "tok"])
    ∧ execRes1.usedPrice = execRes1.limitPrice := by
  have heval : execute_order benignEnv "m" 0 "buy" 1 (1/2) none none true (some "tok") =
      (Except.ok execRes1, [NetCall.bookFetch "tok"]) := by
    simp [execute_order, benignEnv, resolve_token, book_with_override, get_orderbook,
      pick_price, build_order_body, submit_order, execRes1, pyTruthy, pyOrInt,
      to_base_units, pyRound]
    norm_num
    exact ⟨rfl, rfl⟩
  exact ⟨heval,
    used_price_equals_limit_price.2 benignEnv "m" 0 "buy" 1 (1/2) none none true
      (some "tok") execRes1 [NetCall.bookFetch "tok"] heval⟩

/-- C3 counterexample: executeOrder called with the non-positive size 0
does not fail with a validation error; it succeeds, and an order body is
built (with size serialized as the string 0), signed and submitted in
simulation, contradicting the claim that non-positive sizes are rejected
before any order is built. -/
theorem execute_order_size_validation_counterexample :
    (execute_order benignEnv "m" 0 "buy" 0 (1/2) none none true (some "tok")).1.map
      (fun r => r.orderBody.size) = Except.ok "0" := by
  simp [execute_order, benignEnv, resolve_token, book_with_override, get_orderbook,
    pick_price, build_order_body, submit_order, pyTruthy, pyOrInt, to_base_units,
    pyRound]
  norm_num
  rfl

/-- C3 amended: execute_order performs no validation of size or side.
Any non-positive size passes the notional check (its notional is
non-positive) and flows into the built order, and any side string other
than buy is silently encoded as sell (1); the pipeline completes
successfully. Only an out-of-range outcome index is rejected, inside
get_token_info. -/
theorem execute_order_no_size_side_validation (size : ℚ) (hsize : size ≤ 0)
    (side : String) :
    (execute_order benignEnv "m" 0 side size (1/2) none none true (some "tok")).1.map
      (fun r => r.orderBody.side) =
    Except.ok (if side = "buy" then 0 else 1) := by
  have hno : ¬ (500 : ℚ) < size * 2⁻¹ := by nlinarith
  by_cases hb : side = "buy"
  · subst hb
    simp [execute_order, benignEnv, resolve_token, book_with_override, get_orderbook,
      pick_price, pyTruthy, pyOrInt, build_order_body, submit_order, hno]
    norm_num
    rfl
  · by_cases hs : side = "sell"
    · subst hs
      simp [execute_order, benignEnv, resolve_token, book_with_override, get_orderbook,
        pick_price, pyTruthy, pyOrInt, build_order_body, submit_order, hno]
      norm_num
      rfl
    · simp [execute_order, benignEnv, resolve_token, book_with_override, get_orderbook,
        pick_price, pyTruthy, pyOrInt, build_order_body, submit_order, hno, hb, hs]
      rfl

/-- Witness for the C3 amended theorem: a sell of size -1 is accepted
and encoded with side 1. -/
theorem execute_order_no_size_side_validation_witness :
    (execute_order benignEnv "m" 0 "sell" (-1) (1/2) none none true (some "tok")).1.map
      (fun r => r.orderBody.side) = Except.ok 1 := by
  simpa using execute_order_no_size_side_validation (-1) (by norm_num) "sell"

/-- Helper for C8: on a cursor chain that ends within n pages, the scan
issues at most n page fetches and never exhausts its fuel when given at
least n fuel. -/
theorem scanLoop_endsWithin (env : Env) (cond : String) :
    ∀ (n fuel : ℕ) (c : String), n ≤ fuel → EndsWithin env n c →
      (scanLoop env cond fuel c).2.length ≤ n ∧
      (scanLoop env cond fuel c).1 ≠ Except.error Err.fuelExhausted := by
  intro n
  induction n with
  | zero => intro fuel c _ hE; exact absurd hE id
  | succ m ih =>
    intro fuel c hle hE
    obtain ⟨p, hp, hrest⟩ := hE
    obtain ⟨f, rfl⟩ : ∃ f, fuel = f + 1 := ⟨fuel - 1, by omega⟩
    unfold scanLoop
    rw [hp]
    dsimp only
    split
    · simp
    · next hfm =>
      split_ifs with hend
      · simp
      · dsimp only
        have hrec : EndsWithin env m (p.next_cursor.getD "") := by
          rcases hrest with h | h
          · exact absurd h hend
          · exact h
        have := ih f (p.next_cursor.getD "") (by omega) hrec
        constructor
        · simpa using by omega
        · exact this.2

/-- Helper for C8: on a no-match chain the scan returns the not-found
error within the chain length. -/
theorem scanLoop_noMatch (env : Env) (cond : String) :
    ∀ (n fuel : ℕ) (c : String), n ≤ fuel → NoMatchChain env cond n c →
      (scanLoop env cond fuel c).1 = Except.error (Err.notFound cond) ∧
      (scanLoop env cond fuel c).2.length ≤ n := by
  intro n
  induction n with
  | zero => intro fuel c _ hE; exact absurd hE id
  | succ m ih =>
    intro fuel c hle hE
    obtain ⟨p, hp, hfm, hrest⟩ := hE
    obtain ⟨f, rfl⟩ : ∃ f, fuel = f + 1 := ⟨fuel - 1, by omega⟩
    unfold scanLoop
    rw [hp]
    dsimp only
    rw [hfm]
    dsimp only
    split_ifs with hend
    · simp
    · dsimp only
      have hrec : NoMatchChain env cond m (p.next_cursor.getD "") := by
        rcases hrest with h | h
        · exact absurd h hend
        · exact h
      have := ih f (p.next_cursor.getD "") (by omega) hrec
      refine ⟨this.1, ?_⟩
      have := this.2
      simp only [List.length_cons]
      omega

/-- C8: the fallback pagination scan stops at a page whose next cursor
is empty, absent, or the LTE= sentinel: on a listing whose cursor chain
ends within n pages the scan fetches at most n pages and never runs out
when given at least n fuel; when additionally no visited page contains a
market matching the (case-insensitively compared) identifier, the scan,
and the whole resolver when its point lookup also finds no match, fail
with the not-found error. -/
theorem resolver_pagination_terminates_not_found :
    (∀ (env : Env) (cond : String) (n fuel : ℕ) (c : String),
        n ≤ fuel → EndsWithin env n c →
        (scanLoop env cond fuel c).2.length ≤ n ∧
        (scanLoop env cond fuel c).1 ≠ Except.error Err.fuelExhausted)
    ∧ (∀ (env : Env) (cond : String) (n fuel : ℕ) (c : String),
        n ≤ fuel → NoMatchChain env cond n c →
        (scanLoop env cond fuel c).1 = Except.error (Err.notFound cond) ∧
        (scanLoop env cond fuel c).2.length ≤ n)
    ∧ (∀ (env : Env) (cid : String) (n : ℕ),
        n ≤ env.fuel →
        (∀ m, env.lookup cid.toLower = FetchResult.ok m →
          matchesId cid.toLower m = false) →
        NoMatchChain env cid.toLower n "" →
        (find_market_by_condition_id env cid).1 =
          Except.error (Err.notFound cid.toLower)) := by
  refine ⟨scanLoop_endsWithin, scanLoop_noMatch, ?_⟩
  intro env cid n hn hfast hchain
  unfold find_market_by_condition_id
  dsimp only
  split
  · next m heq =>
    exfalso
    cases hl : env.lookup cid.toLower with
    | ok m2 =>
      rw [hl] at heq
      dsimp only at heq
      split_ifs at heq with hm
      rw [hfast m2 hl] at hm
      simp at hm
    | httpError s b => rw [hl] at heq; simp at heq
    | exn msg => rw [hl] at heq; simp at heq
  · exact (scanLoop_noMatch env cid.toLower n env.fuel "" hn hchain).1

/-- Witness for C8: a two-page listing with no match and a final LTE=
sentinel makes the scan fail with not-found after at most two fetches. -/
theorem resolver_pagination_witness :
    (scanLoop pagedEnv "zzz" 10 "").1 = Except.error (Err.notFound "zzz") ∧
    (scanLoop pagedEnv "zzz" 10 "").2.length ≤ 2 :=
  resolver_pagination_terminates_not_found.2.1 pagedEnv "zzz" 2 10 ""
    (by norm_num)
    ⟨{ data := [], next_cursor := some "c1" }, rfl, rfl,
      Or.inr ⟨{ data := [], next_cursor := some "LTE=" }, rfl, rfl, Or.inl rfl⟩⟩

/-- Helper for C6: when every entry before t is skipped or fails non-2xx
and t carries an eligible token whose book fetch succeeds, the sibling
loop returns exactly that book. -/
theorem tryAlternates_first_ok (env : Env) (primary : String)
    (t : TokenJson) (tid : String) (d : BookJson) (rest : List TokenJson) :
    ∀ (pre : List TokenJson), (∀ t2 ∈ pre, skippedOrHttpFails env primary t2) →
      t.token_id = some tid → tid ≠ "" → tid ≠ primary →
      env.book tid = FetchResult.ok d →
      (tryAlternates env primary (pre ++ t :: rest)).1 =
        Except.ok (d.bids, d.asks) := by
  intro pre
  induction pre with
  | nil =>
    intro _ ht htne htnp hb
    unfold tryAlternates
    simp only [List.nil_append, ht]
    rw [if_neg (by simp [htne, htnp])]
    rw [hb]
  | cons t2 pre2 ih =>
    intro hskip ht htne htnp hb
    have hs2 := hskip t2 (List.mem_cons_self t2 pre2)
    have hrest : ∀ t3 ∈ pre2, skippedOrHttpFails env primary t3 := by
      intro t3 h3
      exact hskip t3 (List.mem_cons_of_mem t2 h3)
    have hih := ih hrest ht htne htnp hb
    rw [List.cons_append]
    unfold tryAlternates
    rcases hs2 with h | h | h | ⟨tid2, s2, b2, ht2, hb2⟩
    · rw [h]
      exact hih
    · rw [h]
      dsimp only
      rw [if_pos (Or.inl rfl)]
      exact hih
    · rw [h]
      dsimp only
      rw [if_pos (Or.inr rfl)]
      exact hih
    · rw [ht2]
      dsimp only
      by_cases hsk : tid2 = "" ∨ tid2 = primary
      · rw [if_pos hsk]
        exact hih
      · rw [if_neg hsk]
        rw [hb2]
        dsimp only
        exact hih

/-- Helper for C6: when every entry is skipped or fails non-2xx the
sibling loop exhausts the list and yields the no-liquidity error. -/
theorem tryAlternates_exhausted (env : Env) (primary : String) :
    ∀ (ts : List TokenJson), (∀ t2 ∈ ts, skippedOrHttpFails env primary t2) →
      (tryAlternates env primary ts).1 = Except.error Err.liquidityUnavailable := by
  intro ts
  induction ts with
  | nil => intro _; rfl
  | cons t2 rest ih =>
    intro hskip
    have hs2 := hskip t2 (List.mem_cons_self t2 rest)
    have hrest : ∀ t3 ∈ rest, skippedOrHttpFails env primary t3 := by
      intro t3 h3
      exact hskip t3 (List.mem_cons_of_mem t2 h3)
    have hih := ih hrest
    unfold tryAlternates
    rcases hs2 with h | h | h | ⟨tid2, s2, b2, ht2, hb2⟩
    · rw [h]
      exact hih
    · rw [h]
      dsimp only
      rw [if_pos (Or.inl rfl)]
      exact hih
    · rw [h]
      dsimp only
      rw [if_pos (Or.inr rfl)]
      exact hih
    · rw [ht2]
      dsimp only
      by_cases hsk : tid2 = "" ∨ tid2 = primary
      · rw [if_pos hsk]
        exact hih
      · rw [if_neg hsk]
        rw [hb2]
        dsimp only
        exact hih

/-- C6 counterexample: the claim says a transport failure (exception) on
the primary book fetch also triggers the sibling fallback. In this
environment the primary token book fetch raises a transport exception
while the sibling tok has a perfectly good book, yet get_orderbook
propagates the transport error after a single fetch instead of returning
the sibling book. -/
theorem get_orderbook_transport_counterexample :
    get_orderbook benignEnv "prim"
        (some [{ token_id := some "tok", outcome := none }]) =
      (Except.error (Err.transport "connection reset"), [NetCall.bookFetch "prim"])
    ∧ benignEnv.book "tok" =
        FetchResult.ok { bids := [(1/2, 1)], asks := [(1/2, 1)] } := by
  constructor
  · simp [get_orderbook, benignEnv]
  · simp [benignEnv]

/-- C6 amended: the sibling fallback runs only when the primary book
fetch returns a non-2xx response; a transport exception propagates
immediately without trying siblings. On non-2xx, siblings are tried in
their original order (skipping entries with missing, empty or
primary-equal token ids) and the first succeeding sibling book is
returned; if every candidate is skipped or fails non-2xx the call fails
with the no-liquidity error (also when no sibling list was supplied);
and in execute_order any book failure is downgraded to the empty
snapshot exactly when the caller requested dry-run and the
allow-missing-book flag is set, in which case the order succeeds at the
unchanged limit price. -/
theorem get_orderbook_fallback_amended :
    (∀ (env : Env) (tid : String) (toks : Option (List TokenJson)) (d : BookJson),
        env.book tid = FetchResult.ok d →
        (get_orderbook env tid toks).1 = Except.ok (d.bids, d.asks))
    ∧ (∀ (env : Env) (primary m : String),
        env.book primary = FetchResult.exn m →
        ∀ (toks : Option (List TokenJson)),
        (get_orderbook env primary toks).1 = Except.error (Err.transport m))
    ∧ (∀ (env : Env) (primary : String) (st : ℤ) (bd : String)
        (pre rest : List TokenJson) (t : TokenJson) (tid : String) (d : BookJson),
        env.book primary = FetchResult.httpError st bd →
        (∀ t2 ∈ pre, skippedOrHttpFails env primary t2) →
        t.token_id = some tid → tid ≠ "" → tid ≠ primary →
        env.book tid = FetchResult.ok d →
        (get_orderbook env primary (some (pre ++ t :: rest))).1 =
          Except.ok (d.bids, d.asks))
    ∧ (∀ (env : Env) (primary : String) (st : ℤ) (bd : String)
        (toks : List TokenJson),
        env.book primary = FetchResult.httpError st bd →
        (∀ t2 ∈ toks, skippedOrHttpFails env primary t2) →
        (get_orderbook env primary (some toks)).1 =
          Except.error Err.liquidityUnavailable)
    ∧ (∀ (env : Env) (primary : String) (st : ℤ) (bd : String),
        env.book primary = FetchResult.httpError st bd →
        (get_orderbook env primary none).1 = Except.error Err.liquidityUnavailable)
    ∧ (∀ (env : Env) (mi : String) (oi : ℤ) (side : String) (size lp : ℚ)
        (ttl ms : Option ℤ) (tok : String) (e : Err),
        pyTruthy env.rpc = true → pyTruthy env.pk = true →
        (pyTruthy env.domain_name && pyTruthy env.domain_version &&
          pyTruthy env.verifier) = true →
        ¬ size * lp > env.maxOrderUsdc → tok ≠ "" →
        (get_orderbook env tok none).1 = Except.error e →
        env.allowMissingBook = true →
        (execute_order env mi oi side size lp ttl ms true (some tok)).1.map
          (fun r => r.usedPrice) = Except.ok lp) := by
  refine ⟨?_, ?_, ?_, ?_, ?_, ?_⟩
  · intro env tid toks d hb
    unfold get_orderbook
    rw [hb]
  · intro env primary m hb toks
    unfold get_orderbook
    rw [hb]
  · intro env primary st bd pre rest t tid d hb hskip ht htne htnp hok
    unfold get_orderbook
    rw [hb]
    dsimp only
    exact tryAlternates_first_ok env primary t tid d rest pre hskip ht htne htnp hok
  · intro env primary st bd toks hb hskip
    unfold get_orderbook
    rw [hb]
    dsimp only
    exact tryAlternates_exhausted env primary toks hskip
  · intro env primary st bd hb
    unfold get_orderbook
    rw [hb]
  · intro env mi oi side size lp ttl ms tok e hrpc hpk hdom hno htok hbook hallow
    unfold execute_order
    rw [hrpc, hpk, hdom]
    simp only [Bool.true_eq_false, if_false]
    rw [if_neg hno]
    have hres : resolve_token env mi oi (some tok) =
        (Except.ok (tok, [], none), []) := by
      unfold resolve_token
      rw [if_pos (by simp [pyTruthy, htok])]
      rfl
    rw [hres]
    dsimp only
    rcases hgo : get_orderbook env tok none with ⟨res, tr⟩
    rw [hgo] at hbook
    dsimp only at hbook
    subst hbook
    have hbo : book_with_override env tok none true = (Except.ok ([], []), tr) := by
      unfold book_with_override
      rw [hgo]
      dsimp only
      rw [if_pos (by simp [hallow])]
    rw [hbo]
    dsimp only
    rw [pick_price_empty_book]
    try dsimp only
    rw [submit_order]
    try dsimp only
    rfl

/-- Witness for the C6 amended theorem: in flakyEnv the primary book
fetch answers 404 and the sibling sib has a book; the fallback returns
the sibling book. -/
theorem get_orderbook_fallback_amended_witness :
    (get_orderbook flakyEnv "prim"
        (some [{ token_id := some "sib", outcome := none }])).1 =
      Except.ok ([((2:ℚ)/5, 1)], [((2:ℚ)/5, 1)]) := by
  have h := get_orderbook_fallback_amended.2.2.1 flakyEnv "prim" 404 "not found"
    [] [] { token_id := some "sib", outcome := none } "sib"
    { bids := [(2/5, 1)], asks := [(2/5, 1)] }
    (by simp [flakyEnv, benignEnv]) (by simp) rfl (by simp) (by simp)
    (by simp [flakyEnv, benignEnv])
  simpa using h

/-- C9 counterexample: the caller supplies maxSlippageBps 0 and
ttlSeconds 0; the claim says these supplied values are used. The code
treats both as falsy and substitutes the defaults: the order at limit
0.601 against best ask 0.6 succeeds (a budget of 0 bps would reject it,
as the second conjunct shows) and the expiration is now + 600, not
now + 0. -/
theorem supplied_zero_params_counterexample :
    (execute_order benignEnv "m" 0 "buy" 1 (601/1000) (some 0) (some 0) true
        (some "tok6")).1.map (fun r => (r.usedPrice, r.orderBody.expiration)) =
      Except.ok ((601/1000 : ℚ), 1600)
    ∧ pick_price "buy" (601/1000) [((3:ℚ)/5, 5)] [((3:ℚ)/5, 5)] 0 =
      Except.error Err.slippageExceeded := by
  constructor
  · simp [execute_order, benignEnv, resolve_token, book_with_override, get_orderbook,
      pick_price, pyTruthy, pyOrInt, build_order_body, submit_order]
    norm_num
    rfl
  · unfold pick_price
    norm_num

/-- C9 amended: the Python expression value-or-default used for both
maxSlippageBps and ttlSeconds selects a supplied nonzero value, but
treats both an absent value and a supplied 0 as falsy and falls back to
the configured default; consequently a supplied nonzero ttl v gives
expiration now + v while a supplied 0 does not. -/
theorem effective_params_nonzero_supplied_used :
    (∀ (v d : ℤ), v ≠ 0 → pyOrInt (some v) d = v)
    ∧ (∀ d : ℤ, pyOrInt none d = d)
    ∧ (∀ d : ℤ, pyOrInt (some 0) d = d)
    ∧ (∀ v : ℤ, v ≠ 0 →
        (execute_order benignEnv "m" 0 "buy" 1 (1/2) (some v) none true
            (some "tok")).1.map (fun r => r.orderBody.expiration) =
          Except.ok (1000 + v)) := by
  refine ⟨?_, ?_, ?_, ?_⟩
  · intro v d hv
    simp [pyOrInt, hv]
  · intro d
    rfl
  · intro d
    rfl
  · intro v hv
    simp [execute_order, benignEnv, resolve_token, book_with_override, get_orderbook,
      pick_price, pyTruthy, pyOrInt, build_order_body, submit_order, hv]
    norm_num
    rfl

/-- Witness for the C9 amended theorem: ttl 5 gives expiration 1005. -/
theorem effective_params_nonzero_supplied_used_witness :
    pyOrInt (some 5) 600 = 5 ∧
    (execute_order benignEnv "m" 0 "buy" 1 (1/2) (some 5) none true
        (some "tok")).1.map (fun r => r.orderBody.expiration) = Except.ok 1005 := by
  constructor
  · exact effective_params_nonzero_supplied_used.1 5 600 (by decide)
  · have h := effective_params_nonzero_supplied_used.2.2.2 5 (by decide)
    simpa using h

end PolymarketExecutor
